import Mathlib

/-!
Verification of the go-udt core against its specification.

The Go sources are shallowly embedded: pure functions become Lean
functions, Go `uint` (64-bit) arithmetic is `Nat` with explicit
`% 2^64` where a wrap could occur, `uint32` values are `Nat`s below
`2^32`, and loops whose termination is in question are modelled with
an explicit fuel parameter (`none` = the fuel ran out, which for a
loop whose state repeats means the Go loop never exits).
-/

namespace GoUDT

/-! ### Data model: packets and heap element types
From `udt/packet` (via datapacket_heap.go and the packetIDHeap source):
`DataPacket` carries a 31-bit sequence number `Seq` and a payload;
`PacketID` wraps a `uint32` sequence number. -/

structure DataPacket where
  Seq : Nat
  Data : List Nat := []
deriving Repr, DecidableEq

def defaultDataPacket : DataPacket := ⟨0, []⟩

structure PacketID where
  Seq : Nat
deriving Repr, DecidableEq

/-! ### datapacket_heap.go -/

abbrev dataPacketHeap := List DataPacket

/-- Go: `func (h dataPacketHeap) Less(i, j int) bool { return h[i].Seq < h[j].Seq }`
A plain (non-modular) comparison of the raw sequence numbers. -/
def dataPacketHeap.Less (h : dataPacketHeap) (i j : Nat) : Bool :=
  decide ((h.getD i defaultDataPacket).Seq < (h.getD j defaultDataPacket).Seq)

abbrev packetIDHeap := List PacketID

/-- Go: `func (h packetIDHeap) Less(i, j int) bool { return h[i].Seq < h[j].Seq }` -/
def packetIDHeap.Less (h : packetIDHeap) (i j : Nat) : Bool :=
  decide ((h.getD i ⟨0⟩).Seq < (h.getD j ⟨0⟩).Seq)

/-- The loop of `dataPacketHeap.Min`:
```
idx := 0
for { newIdx := idx * 2
      if newIdx >= len { return h[idx], idx }
      idx = newIdx }
```
Fuel-indexed: `none` means the fuel was exhausted (the Go loop has not
returned after that many iterations); `some idx` is the returned index. -/
def dataPacketHeap.MinLoop (len : Nat) : Nat → Nat → Option Nat
  | 0, _ => none
  | fuel + 1, idx =>
    if idx * 2 ≥ len then some idx
    else dataPacketHeap.MinLoop len fuel (idx * 2)

/-- The function `dataPacketHeap.Min` under the fuel model; on a successful exit the Go
code returns `h[idx], idx` (an out-of-range `idx` would panic in Go). -/
def dataPacketHeap.Min (h : dataPacketHeap) (fuel : Nat) :
    Option (DataPacket × Nat) :=
  (dataPacketHeap.MinLoop h.length fuel 0).map
    (fun idx => (h.getD idx defaultDataPacket, idx))

/-- The loop of `dataPacketHeap.Find`:
```
idx := 0
for idx < len {
  pid := h[idx].Seq
  if pid == packetID { return h[idx], idx }
  else if pid > packetID { idx = idx * 2 }
  else { idx = idx*2 + 1 } }
return nil, -1
```
`some (some (p, i))` = found, `some none` = returned `(nil, -1)`,
`none` = fuel exhausted. -/
def dataPacketHeap.FindLoop (h : dataPacketHeap) (packetID : Nat) :
    Nat → Nat → Option (Option (DataPacket × Nat))
  | 0, _ => none
  | fuel + 1, idx =>
    if idx < h.length then
      let pid := (h.getD idx defaultDataPacket).Seq
      if pid = packetID then some (some (h.getD idx defaultDataPacket, idx))
      else if pid > packetID then dataPacketHeap.FindLoop h packetID fuel (idx * 2)
      else dataPacketHeap.FindLoop h packetID fuel (idx * 2 + 1)
    else some none

def dataPacketHeap.Find (h : dataPacketHeap) (packetID : Nat) (fuel : Nat) :
    Option (Option (DataPacket × Nat)) :=
  dataPacketHeap.FindLoop h packetID fuel 0

/-- The traversal of `dataPacketHeap.Remove`, which walks exactly as `Find`
does and calls `heap.Remove(h, idx)` returning `true` at a hit, `false` when
the walk leaves the slice.  `some (some idx)` = would remove index `idx`
and return `true`; `some none` = returns `false`; `none` = fuel exhausted. -/
def dataPacketHeap.RemoveWalk (h : dataPacketHeap) (packetID : Nat) :
    Nat → Nat → Option (Option Nat)
  | 0, _ => none
  | fuel + 1, idx =>
    if idx < h.length then
      let pid := (h.getD idx defaultDataPacket).Seq
      if pid = packetID then some (some idx)
      else if pid > packetID then dataPacketHeap.RemoveWalk h packetID fuel (idx * 2)
      else dataPacketHeap.RemoveWalk h packetID fuel (idx * 2 + 1)
    else some none

def dataPacketHeap.Remove (h : dataPacketHeap) (packetID : Nat) (fuel : Nat) :
    Option (Option Nat) :=
  dataPacketHeap.RemoveWalk h packetID fuel 0

/-- Binary min-heap order as maintained by Go's `container/heap` on a
0-based slice: each element is `≤` its children at `2i+1` and `2i+2`. -/
def isMinHeap (h : dataPacketHeap) : Bool :=
  (List.range h.length).all fun i =>
    (decide (h.length ≤ 2 * i + 1)
      || decide ((h.getD i defaultDataPacket).Seq
                  ≤ (h.getD (2 * i + 1) defaultDataPacket).Seq))
    && (decide (h.length ≤ 2 * i + 2)
      || decide ((h.getD i defaultDataPacket).Seq
                  ≤ (h.getD (2 * i + 2) defaultDataPacket).Seq))

/-! ### packetIDHeap.Min (from the packetIDHeap source file) -/

/-- Outcome of `packetIDHeap.Min`: `found` = a `return h[idx], idx`,
`notFound` = the final `return packet.PacketID{Seq: 0}, -1`,
`diverge` = fuel exhausted. -/
inductive MinOutcome
  | diverge
  | found (seq idx : Nat)
  | notFound
deriving Repr, DecidableEq

/-- The wrap-around loop of `packetIDHeap.Min`:
```
idx = 0
for { next := idx * 2
      if next >= len && h[idx].Seq <= lessEqual.Seq { return h[idx], idx }
      idx = next }
```
-/
def packetIDHeap.MinLoop2 (h : packetIDHeap) (lessEqual : Nat) :
    Nat → Nat → MinOutcome
  | 0, _ => .diverge
  | fuel + 1, idx =>
    let next := idx * 2
    if next ≥ h.length ∧ (h.getD idx ⟨0⟩).Seq ≤ lessEqual then
      .found (h.getD idx ⟨0⟩).Seq idx
    else packetIDHeap.MinLoop2 h lessEqual fuel next

/-- First loop of `packetIDHeap.Min`:
```
for idx < len {
  pid := h[idx]
  var next int
  if pid.Seq == greaterEqual.Seq { return h[idx], idx }
  else if pid.Seq >= greaterEqual.Seq { next = idx * 2 }
  else { next = idx*2 + 1 }
  if next >= len && h[idx].Seq > greaterEqual.Seq && (wrapped || h[idx].Seq <= lessEqual.Seq) {
    return h[idx], idx }
  idx = next }
```
`.notFound` stands for falling out of the loop (`idx ≥ len`). -/
def packetIDHeap.MinLoop1 (h : packetIDHeap) (greaterEqual lessEqual : Nat)
    (wrapped : Bool) : Nat → Nat → MinOutcome
  | 0, _ => .diverge
  | fuel + 1, idx =>
    if idx < h.length then
      let pid := (h.getD idx ⟨0⟩).Seq
      if pid = greaterEqual then .found pid idx
      else
        let next := if pid ≥ greaterEqual then idx * 2 else idx * 2 + 1
        if next ≥ h.length ∧ pid > greaterEqual ∧ (wrapped ∨ pid ≤ lessEqual) then
          .found pid idx
        else packetIDHeap.MinLoop1 h greaterEqual lessEqual wrapped fuel next
    else .notFound

/-- The function `packetIDHeap.Min(greaterEqual, lessEqual)` under the fuel model. -/
def packetIDHeap.Min (h : packetIDHeap) (greaterEqual lessEqual : Nat)
    (fuel : Nat) : MinOutcome :=
  let wrapped := decide (greaterEqual > lessEqual)
  match packetIDHeap.MinLoop1 h greaterEqual lessEqual wrapped fuel 0 with
  | .found s i => .found s i
  | .diverge => .diverge
  | .notFound =>
    if wrapped then packetIDHeap.MinLoop2 h lessEqual fuel 0
    else .notFound

/-! ### udtsocket.go: state machine, errors, Read/Write -/

inductive sockState
  | sockStateInit
  | sockStateRendezvous
  | sockStateConnecting
  | sockStateConnected
  | sockStateClosed
  | sockStateRefused
  | sockStateCorrupted
  | sockStateTimeout
deriving Repr, DecidableEq

/-- The error values produced by udtsocket.go: the four `connectionError`
strings, `syscall.ETIMEDOUT` from the deadline paths, and
`errors.New("Message truncated")` from the datagram read path. -/
inductive ConnError
  | refusedByRemote   -- "Connection refused by remote host"
  | protocolError     -- "Connection closed due to protocol error"
  | connClosed        -- "Connection closed"
  | connTimedOut      -- "Connection timed out"
  | etimedout         -- syscall.ETIMEDOUT (deadline passed)
  | messageTruncated  -- "Message truncated"
deriving Repr, DecidableEq

/-- Go: `func (s *udtSocket) connectionError() error` -/
def connectionError (st : sockState) : Option ConnError :=
  match st with
  | .sockStateRefused => some .refusedByRemote
  | .sockStateCorrupted => some .protocolError
  | .sockStateClosed => some .connClosed
  | .sockStateTimeout => some .connTimedOut
  | _ => none

/-- Go: `func (s *udtSocket) isOpen() bool` -/
def isOpen (st : sockState) : Bool :=
  match st with
  | .sockStateClosed | .sockStateRefused | .sockStateCorrupted
  | .sockStateTimeout => false
  | _ => true

/-- Result of one pass of `udtSocket.Write`'s select: either an error
return, a successful enqueue of the whole buffer onto `messageOut`
(Write returns `len(p)`), or blocking on a full channel. -/
inductive WriteResult
  | err (e : ConnError)
  | queued (n : Nat)
  | blocked
deriving Repr, DecidableEq

/-- The method `udtSocket.Write`.  The `switch s.sockState` handles only
`Refused`, `Corrupted` and `Closed`; any other state falls through into
the send loop, modelled here for one pass of the `select`
(`messageOutHasRoom` = the bounded channel can accept the message now). -/
def udtSocketWrite (st : sockState) (writeDeadlinePassed : Bool)
    (messageOutHasRoom : Bool) (plen : Nat) : WriteResult :=
  match st with
  | .sockStateRefused => .err .refusedByRemote
  | .sockStateCorrupted => .err .protocolError
  | .sockStateClosed => .err .connClosed
  | _ =>
    if writeDeadlinePassed then .err .etimedout
    else if messageOutHasRoom then .queued plen
    else .blocked

/-- Result of `udtSocket.fetchReadPacket`: an ETIMEDOUT error, a message
taken from `messageIn` (which may be the `nil` shutdown sentinel, hence
`Option`), the non-blocking empty answer `(nil, nil)`, or blocking. -/
inductive FetchResult
  | timedOut
  | fetched (m : Option (List Nat))
  | empty
  | blocked
deriving Repr, DecidableEq

/-- The method `udtSocket.fetchReadPacket(blocking)` over the queued contents of the
`messageIn` channel (head = next message to be received). -/
def fetchReadPacket (blocking : Bool) (readDeadlinePassed : Bool)
    (messageIn : List (Option (List Nat))) : FetchResult :=
  if blocking then
    if readDeadlinePassed then .timedOut
    else
      match messageIn with
      | m :: _ => .fetched m
      | [] => .blocked
  else
    match messageIn with
    | m :: _ => .fetched m
    | [] => .empty

/-- Result of `udtSocket.Read`: the returned `(n, err)` pair together
with the bytes copied into the caller's buffer, or blocking. -/
inductive ReadResult
  | result (n : Nat) (data : List Nat) (e : Option ConnError)
  | blocked
deriving Repr, DecidableEq

/-- The datagram branch of `udtSocket.Read` over a buffer of length
`bufLen`; also returns the remaining contents of `messageIn` (a fetched
message is consumed from the channel whole, so whatever the buffer does
not hold is discarded).
```
connErr := s.connectionError()
msg, rerr := s.fetchReadPacket(connErr == nil)
if rerr != nil { err = rerr; return }
if msg == nil && connErr != nil { err = connErr; return }
n = copy(p, msg)
if n < len(msg) { err = errors.New("Message truncated") }
```
-/
def udtSocketReadDatagram (st : sockState) (readDeadlinePassed : Bool)
    (messageIn : List (Option (List Nat))) (bufLen : Nat) :
    ReadResult × List (Option (List Nat)) :=
  let connErr := connectionError st
  match fetchReadPacket connErr.isNone readDeadlinePassed messageIn with
  | .timedOut => (.result 0 [] (some .etimedout), messageIn)
  | .blocked => (.blocked, messageIn)
  | .empty =>
    match connErr with
    | some e => (.result 0 [] (some e), messageIn)
    | none => (.result 0 [] none, messageIn)
  | .fetched m =>
    let rest := messageIn.tail
    match m with
    | none =>
      match connErr with
      | some e => (.result 0 [] (some e), rest)
      | none => (.result 0 [] none, rest)
    | some msg =>
      let n := min bufLen msg.length
      ((.result n (msg.take bufLen)
          (if n < msg.length then some .messageTruncated else none)), rest)

/-! ### udtsocket.go: RTT and receive-rate EWMAs.
Go `uint` here is 64-bit, so every arithmetic step wraps modulo `2^64`. -/

/-- Go: `func absdiff(a uint, b uint) uint` -/
def absdiff (a b : Nat) : Nat := if a < b then b - a else a - b

/-- The method `udtSocket.applyRTT`:
```
s.rttVar = (s.rttVar*3 + absdiff(s.rtt, rtt)) >> 2
s.rtt = (s.rtt*7 + rtt) >> 3
```
(the variance update reads the pre-update `s.rtt`).  Result is the new
`(rtt, rttVar)` pair. -/
def applyRTT (rtt rttVar sample : Nat) : Nat × Nat :=
  let rttVar' := ((rttVar * 3 + absdiff rtt sample) % 2 ^ 64) / 4
  let rtt' := ((rtt * 7 + sample) % 2 ^ 64) / 8
  (rtt', rttVar')

/-- Repeated application of `applyRTT`, `n` times, with the same sample. -/
def applyRTTiter (rtt rttVar sample : Nat) : Nat → Nat × Nat
  | 0 => (rtt, rttVar)
  | n + 1 =>
    let p := applyRTTiter rtt rttVar sample n
    applyRTT p.1 p.2 sample

/-- The method `udtSocket.applyReceiveRates`:
```
if deliveryRate > 0 { s.deliveryRate = (s.deliveryRate*7 + deliveryRate) >> 3 }
if bandwidth > 0 { s.bandwidth = (s.bandwidth*7 + bandwidth) >> 3 }
```
Result is the new `(deliveryRate, bandwidth)` pair. -/
def applyReceiveRates (deliveryRate bandwidth sampleDeliveryRate sampleBandwidth : Nat) :
    Nat × Nat :=
  let d :=
    if 0 < sampleDeliveryRate then
      ((deliveryRate * 7 + sampleDeliveryRate) % 2 ^ 64) / 8
    else deliveryRate
  let b :=
    if 0 < sampleBandwidth then
      ((bandwidth * 7 + sampleBandwidth) % 2 ^ 64) / 8
    else bandwidth
  (d, b)

/-! ### multiplexer.go: discoverMTU -/

/-- One `net.Interface` as consulted by `discoverMTU`: its MTU, whether
`FlagUp`/`FlagLoopback` are set, whether `iface.Addrs()` succeeded, and
whether one of its address networks contains the local IP
(`ipnet.Contains(ourIP)`). -/
structure NetInterface where
  mtu : Nat
  up : Bool
  loopback : Bool
  addrsOK : Bool
  containsOurIP : Bool
deriving Repr, DecidableEq

def absMaxDatagramSize : Nat := 2147483646  -- 2**31-2

/-- Go: `func discoverMTU(ourIP net.IP) (int, error)` — `ifaces = none`
models `net.Interfaces()` failing (the `return 65535, err` path). -/
def discoverMTU (ifaces : Option (List NetInterface)) : Nat :=
  match ifaces with
  | none => 65535
  | some ifs =>
    let filtered := ifs.filter fun i => i.addrsOK && i.containsOurIP
    let filtered := if filtered.isEmpty then ifs else filtered
    let mtu := filtered.foldl
      (fun m i => if (i.up && !i.loopback) && decide (i.mtu > m) then i.mtu else m)
      65535
    if mtu > absMaxDatagramSize then absMaxDatagramSize else mtu

/-- The MTU rule as the specification words it (refinement comparison
for `discoverMTU`): the largest MTU among the up interfaces of the
filtered set (interfaces with an address matching the local IP, or all
interfaces when none match), capped at `2^31 - 2`, defaulting to 65535
when interface information is unavailable. -/
def discoverMTUspec (ifaces : Option (List NetInterface)) : Nat :=
  match ifaces with
  | none => 65535
  | some ifs =>
    let filtered := ifs.filter fun i => i.addrsOK && i.containsOurIP
    let filtered := if filtered.isEmpty then ifs else filtered
    let best := ((filtered.filter fun i => i.up).map NetInterface.mtu).foldl max 0
    min best absMaxDatagramSize

/-! ### udtsocket.go: readHandshake and readPacket -/

/-- A UDP endpoint; `net.UDPAddr` compared by `from.IP.Equal(s.raddr.IP)`
and `from.Port != s.raddr.Port`. -/
structure UDPAddr where
  ip : Nat
  port : Nat
deriving Repr, DecidableEq

inductive SockType
  | TypeSTREAM
  | TypeDGRAM
deriving Repr, DecidableEq

inductive HandshakeReqType
  | HsRequest
  | HsRendezvous
  | HsResponse
  | HsResponse2
  | HsRefused
deriving Repr, DecidableEq

structure HandshakePacket where
  UdtVer : Nat
  SockType : SockType
  InitPktSeq : Nat
  MaxPktSize : Nat
  MaxFlowWinSize : Nat
  ReqType : HandshakeReqType
  SockID : Nat
  SynCookie : Nat
deriving Repr, DecidableEq

/-- The fields of `udtSocket` that `readHandshake`/`readPacket` consult
or mutate. -/
structure udtSocket where
  raddr : UDPAddr
  udtVer : Nat
  isDatagram : Bool
  isServer : Bool
  sockID : Nat
  farSockID : Nat
  initPktSeq : Nat
  sockState : sockState
  mtu : Nat
deriving Repr, DecidableEq

/-- The method `udtSocket.checkValidHandshake`: `if s.udtVer != 4 { return false }`. -/
def checkValidHandshake (s : udtSocket) (_p : HandshakePacket) (_a : UDPAddr) : Bool :=
  decide (s.udtVer = 4)

/-- Go: `if s.mtu.get() > p.MaxPktSize { s.mtu.set(p.MaxPktSize) }` -/
def applyMaxPktSize (s : udtSocket) (p : HandshakePacket) : udtSocket :=
  if s.mtu > p.MaxPktSize then { s with mtu := p.MaxPktSize } else s

/-- The method `udtSocket.readHandshake` (the version with the rich `sockState`
enumeration).  Returns the mutated socket and the Go function's boolean
result.  The packet sends (`sendHandshake`) and processor launches it
performs are side effects on other components and leave these fields
unchanged, so they do not appear in the result. -/
def readHandshake (s : udtSocket) (p : HandshakePacket) (fromAddr : UDPAddr) :
    udtSocket × Bool :=
  if ¬(fromAddr.ip = s.raddr.ip ∧ fromAddr.port = s.raddr.port) then (s, false)
  else
    match s.sockState with
    | .sockStateInit =>
      let s := { s with
        initPktSeq := p.InitPktSeq
        udtVer := p.UdtVer
        farSockID := p.SockID
        isDatagram := decide (p.SockType = .TypeDGRAM) }
      let s := applyMaxPktSize s p
      ({ s with sockState := .sockStateConnected }, true)
    | .sockStateConnecting =>
      if p.ReqType = .HsRefused then
        ({ s with sockState := .sockStateRefused }, true)
      else if p.ReqType = .HsRequest then
        -- may re-send a response handshake; no socket fields change
        (s, true)
      else if p.ReqType ≠ .HsResponse then
        (s, true)
      else if ¬(checkValidHandshake s p fromAddr = true
                ∧ p.InitPktSeq = s.initPktSeq
                ∧ fromAddr.ip = s.raddr.ip ∧ fromAddr.port = s.raddr.port
                ∧ s.isDatagram = decide (p.SockType = .TypeDGRAM)) then
        (s, true)
      else
        let s := { s with farSockID := p.SockID }
        let s := applyMaxPktSize s p
        ({ s with sockState := .sockStateConnected }, true)
    | .sockStateRendezvous =>
      if p.ReqType = .HsRefused then
        ({ s with sockState := .sockStateRefused }, true)
      else if p.ReqType ≠ .HsRendezvous ∨ s.farSockID = 0 then
        (s, true)
      else if ¬(checkValidHandshake s p fromAddr = true
                ∧ fromAddr.ip = s.raddr.ip ∧ fromAddr.port = s.raddr.port
                ∧ s.isDatagram = decide (p.SockType = .TypeDGRAM)) then
        (s, true)
      else
        let s := { s with farSockID := p.SockID }
        let s := applyMaxPktSize s p
        ({ s with sockState := .sockStateConnected }, true)
    | .sockStateConnected =>
      -- resends a handshake response; no socket fields change
      (s, true)
    | _ => (s, false)

/-- The struct `shutdownMessage` as queued on `s.shutdownEvent`. -/
structure shutdownMessage where
  sockState : sockState
  permitLinger : Bool
deriving Repr, DecidableEq

/-- The packet kinds `readPacket` dispatches on. -/
inductive Packet
  | handshake (p : HandshakePacket)
  | shutdown
  | ack
  | lightAck
  | nak
  | userDefControl
  | keepAlive
  | data (dp : DataPacket)
deriving Repr, DecidableEq

/-- The method `udtSocket.readPacket`.  Returns the socket after the call together
with the packets pushed onto `recvEvent` and `sendEvent` and the
messages pushed onto `shutdownEvent` during the call. -/
def readPacket (s : udtSocket) (p : Packet) (fromAddr : UDPAddr) :
    udtSocket × List Packet × List Packet × List shutdownMessage :=
  if s.sockState = .sockStateClosed then (s, [], [], [])
  else if ¬(fromAddr.ip = s.raddr.ip ∧ fromAddr.port = s.raddr.port) then
    (s, [], [], [])
  else
    match p with
    | .handshake hp => ((readHandshake s hp fromAddr).1, [p], [], [])
    | .shutdown => (s, [p], [], [⟨.sockStateClosed, true⟩])
    | .ack => (s, [p], [p], [])
    | .lightAck => (s, [p], [p], [])
    | .nak => (s, [p], [p], [])
    | .userDefControl => (s, [p], [], [])
    | _ => (s, [p], [], [])

/-! ## Claims -/

/-- C1: the containers' comparison is claimed to follow the half-range
modular rule, so that every `a` precedes `(a + k) mod 2^31` for
`0 < k < 2^30`.  Evaluating the code at `a = 2^31 - 1`, `k = 1`:
`(a + k) mod 2^31 = 0`, yet both `Less` functions compare the raw
sequence numbers with plain `<` and order `0` strictly before
`2^31 - 1`, the opposite of the wrap rule. -/
theorem heap_less_ignores_wrap :
    dataPacketHeap.Less [⟨2147483647, []⟩, ⟨0, []⟩] 0 1 = false
    ∧ packetIDHeap.Less [⟨2147483647⟩, ⟨0⟩] 0 1 = false
    ∧ (2147483647 + 1) % 2 ^ 31 = 0
    ∧ 0 < 1 ∧ 1 < 2 ^ 30 := by decide

/-- C2: `Find`/`Remove` are claimed to locate any packet present in a
valid heap.  The slice `[5, 7, 10]` is in valid min-heap order and
contains sequence number 10 (at index 2), yet `Find(10)` walks
0 → 1 → 3 (children taken as `idx*2`/`idx*2+1`, as if the heap were a
search tree) and returns `(nil, -1)`, and `Remove(10)` returns `false`. -/
theorem find_remove_miss_present_packet :
    isMinHeap [⟨5, []⟩, ⟨7, []⟩, ⟨10, []⟩] = true
    ∧ (([⟨5, []⟩, ⟨7, []⟩, ⟨10, []⟩] : dataPacketHeap).map DataPacket.Seq).contains 10
        = true
    ∧ dataPacketHeap.Find [⟨5, []⟩, ⟨7, []⟩, ⟨10, []⟩] 10 10 = some none
    ∧ dataPacketHeap.Remove [⟨5, []⟩, ⟨7, []⟩, ⟨10, []⟩] 10 10 = some none := by
  decide

lemma dataPacketHeapMinLoop_stuck (fuel : Nat) :
    dataPacketHeap.MinLoop 1 fuel 0 = none := by
  induction fuel with
  | zero => rfl
  | succ n ih =>
    simp only [dataPacketHeap.MinLoop, Nat.zero_mul, ge_iff_le]
    simpa using ih

lemma pidMinLoop1_stuck (fuel : Nat) :
    packetIDHeap.MinLoop1 [⟨5⟩] 3 9 false fuel 0 = .diverge := by
  induction fuel with
  | zero => rfl
  | succ n ih =>
    simp only [packetIDHeap.MinLoop1]
    norm_num
    exact ih

/-- C3: both `Min` operations are claimed to terminate on every input.
In fact each starts its walk at index 0 and steps to `idx * 2`, which
keeps `idx = 0` forever: on the one-element heap `[5]` (with bounds
`greaterEqual = 3`, `lessEqual = 9` for `packetIDHeap.Min`) neither
loop returns however much fuel it is given. -/
theorem min_never_terminates (fuel : Nat) :
    dataPacketHeap.Min [⟨5, []⟩] fuel = none
    ∧ packetIDHeap.Min [⟨5⟩] 3 9 fuel = .diverge := by
  constructor
  · simp [dataPacketHeap.Min, dataPacketHeapMinLoop_stuck fuel]
  · simp [packetIDHeap.Min, pidMinLoop1_stuck fuel]

/-- C4 counterexample: the claim says `Read` and `Write` fail with the
state's error in every terminal state.  Concretely: in state
`sockStateTimeout` (deadline not passed, channel with room) `Write`
enqueues a 5-byte message and succeeds instead of failing, and in state
`sockStateClosed` a `Read` with a queued 3-byte message returns the
message with no error instead of failing. -/
theorem write_timeout_read_closed_counterexample :
    udtSocketWrite .sockStateTimeout false true 5 = .queued 5
    ∧ udtSocketWrite .sockStateTimeout false true 5 ≠ .err .connTimedOut
    ∧ udtSocketWrite .sockStateTimeout false true 5 ≠ .err .etimedout
    ∧ (udtSocketReadDatagram .sockStateClosed false [some [1, 2, 3]] 10).1
        = .result 3 [1, 2, 3] none := by decide

/-- C4 amended: `Write` fails with the state's error in the terminal
states `Refused`, `Corrupted` and `Closed` (its switch does not check
`Timeout`), and a datagram `Read` fails with the state's error in every
terminal state provided no message is queued on `messageIn`. -/
theorem terminal_state_read_write_errors (wdp room rdp : Bool) (plen bufLen : Nat) :
    udtSocketWrite .sockStateRefused wdp room plen = .err .refusedByRemote
    ∧ udtSocketWrite .sockStateCorrupted wdp room plen = .err .protocolError
    ∧ udtSocketWrite .sockStateClosed wdp room plen = .err .connClosed
    ∧ (udtSocketReadDatagram .sockStateRefused rdp [] bufLen).1
        = .result 0 [] (some .refusedByRemote)
    ∧ (udtSocketReadDatagram .sockStateCorrupted rdp [] bufLen).1
        = .result 0 [] (some .protocolError)
    ∧ (udtSocketReadDatagram .sockStateClosed rdp [] bufLen).1
        = .result 0 [] (some .connClosed)
    ∧ (udtSocketReadDatagram .sockStateTimeout rdp [] bufLen).1
        = .result 0 [] (some .connTimedOut) :=
  ⟨rfl, rfl, rfl, rfl, rfl, rfl, rfl⟩

/-- C5 counterexample: the claim says `rttVar` decays with per-step
factor 7/8.  At the converged state `rtt = sample = 100` with
`rttVar = 80`, one step of `applyRTT` leaves `rtt = 100` and produces
`rttVar = 60 = 3·80/4`, while a 7/8 factor would give 70 — not equal
even allowing a rounding unit. -/
theorem applyRTT_var_factor_counterexample :
    applyRTT 100 80 100 = (100, 60)
    ∧ 7 * 80 / 8 = 70
    ∧ (applyRTT 100 80 100).2 ≠ 70
    ∧ (applyRTT 100 80 100).2 + 1 < 7 * 80 / 8
    ∧ (applyRTT 100 80 100).2 = 3 * 80 / 4 := by decide

/-- C8 counterexample: the claim says `discoverMTU` returns the largest
MTU among the up matching interfaces.  For a single up, non-loopback
interface matching the local IP with MTU 1500, the code returns 65535
(its accumulator starts at 65535 and only strictly larger MTUs replace
it), not 1500 as the claimed rule (`discoverMTUspec`) requires. -/
theorem discoverMTU_floor_counterexample :
    discoverMTU (some [⟨1500, true, false, true, true⟩]) = 65535
    ∧ discoverMTUspec (some [⟨1500, true, false, true, true⟩]) = 1500
    ∧ (65535 : Nat) ≠ 1500 := by decide

/-- C10: `applyReceiveRates` updates each EWMA only on a positive
sample: a zero `deliveryRate` (resp. `bandwidth`) sample leaves the
stored value unchanged, and a positive sample replaces it by
`(7·old + sample) / 8` (the `uint` arithmetic does not wrap for values
below `2^60`). -/
theorem applyReceiveRates_positive_only (d b sd sb : Nat) :
    (sd = 0 → (applyReceiveRates d b sd sb).1 = d)
    ∧ (sb = 0 → (applyReceiveRates d b sd sb).2 = b)
    ∧ (0 < sd → d < 2 ^ 60 → sd < 2 ^ 60 →
        (applyReceiveRates d b sd sb).1 = (7 * d + sd) / 8)
    ∧ (0 < sb → b < 2 ^ 60 → sb < 2 ^ 60 →
        (applyReceiveRates d b sd sb).2 = (7 * b + sb) / 8) := by
  refine ⟨?_, ?_, ?_, ?_⟩
  · intro h; subst h; simp [applyReceiveRates]
  · intro h; subst h; simp [applyReceiveRates]
  · intro h1 h2 h3
    have hlt : d * 7 + sd < 18446744073709551616 := by
      have e1 : (2 : Nat) ^ 60 = 1152921504606846976 := by norm_num
      rw [e1] at h2 h3; omega
    simp [applyReceiveRates, h1, Nat.mod_eq_of_lt hlt, Nat.mul_comm]
  · intro h1 h2 h3
    have hlt : b * 7 + sb < 18446744073709551616 := by
      have e1 : (2 : Nat) ^ 60 = 1152921504606846976 := by norm_num
      rw [e1] at h2 h3; omega
    simp [applyReceiveRates, h1, Nat.mod_eq_of_lt hlt, Nat.mul_comm]

/-- Witness for C10 at the initial values of `newSocket`
(`deliveryRate = 16`, `bandwidth = 1`) with samples 8 and 0. -/
theorem applyReceiveRates_positive_only_witness :
    (applyReceiveRates 16 1 8 0).1 = (7 * 16 + 8) / 8
    ∧ (applyReceiveRates 16 1 8 0).2 = 1 :=
  ⟨(applyReceiveRates_positive_only 16 1 8 0).2.2.1 (by norm_num) (by norm_num)
      (by norm_num),
    (applyReceiveRates_positive_only 16 1 8 0).2.1 rfl⟩

/-- C9: a packet arriving from a UDP address other than the connected
socket's remote address (different IP or different port) is discarded
by `readPacket` with no socket mutation and nothing pushed on the
`recvEvent`/`sendEvent`/`shutdownEvent` channels, and `readHandshake`
likewise returns `false` without mutating the socket. -/
theorem readPacket_foreign_address_noop (s : udtSocket) (p : Packet)
    (hp : HandshakePacket) (a : UDPAddr)
    (hconn : s.sockState = .sockStateConnected)
    (hmis : a.ip ≠ s.raddr.ip ∨ a.port ≠ s.raddr.port) :
    readPacket s p a = (s, [], [], []) ∧ readHandshake s hp a = (s, false) := by
  have haddr : ¬(a.ip = s.raddr.ip ∧ a.port = s.raddr.port) := by tauto
  constructor
  · unfold readPacket
    simp [hconn, haddr]
  · unfold readHandshake
    simp [haddr]

/-- Witness for C9: a socket connected to `1.1.1.1:2000` receiving a
shutdown packet and a handshake from `3.3.3.3:2000`. -/
theorem readPacket_foreign_address_noop_witness :
    readPacket
        ⟨⟨1, 2000⟩, 4, true, false, 7, 9, 11, .sockStateConnected, 1500⟩
        .shutdown ⟨3, 2000⟩
      = (⟨⟨1, 2000⟩, 4, true, false, 7, 9, 11, .sockStateConnected, 1500⟩, [], [], [])
    ∧ readHandshake
        ⟨⟨1, 2000⟩, 4, true, false, 7, 9, 11, .sockStateConnected, 1500⟩
        ⟨4, .TypeDGRAM, 11, 1500, 25600, .HsResponse, 21, 0⟩ ⟨3, 2000⟩
      = (⟨⟨1, 2000⟩, 4, true, false, 7, 9, 11, .sockStateConnected, 1500⟩, false) :=
  readPacket_foreign_address_noop
    ⟨⟨1, 2000⟩, 4, true, false, 7, 9, 11, .sockStateConnected, 1500⟩
    .shutdown ⟨4, .TypeDGRAM, 11, 1500, 25600, .HsResponse, 21, 0⟩ ⟨3, 2000⟩
    rfl (Or.inl (by decide))

/-- C7: on an open datagram socket (no connection error, read deadline
not passed) with message `msg` at the head of `messageIn`, a `Read`
into a buffer shorter than the message copies exactly `bufLen` bytes,
returns that count with the truncation error, and consumes the whole
message from the queue (the rest is discarded); a buffer at least as
large returns the full message with no error. -/
theorem read_datagram_truncation (st : sockState) (msg : List Nat)
    (rest : List (Option (List Nat))) (bufLen : Nat)
    (hopen : connectionError st = none) :
    (bufLen < msg.length →
      udtSocketReadDatagram st false (some msg :: rest) bufLen
        = (.result bufLen (msg.take bufLen) (some .messageTruncated), rest))
    ∧ (msg.length ≤ bufLen →
      udtSocketReadDatagram st false (some msg :: rest) bufLen
        = (.result msg.length msg none, rest)) := by
  constructor
  · intro h
    simp [udtSocketReadDatagram, fetchReadPacket, hopen, Nat.min_eq_left h.le, h]
  · intro h
    simp [udtSocketReadDatagram, fetchReadPacket, hopen, Nat.min_eq_right h,
      List.take_of_length_le h, Nat.not_lt.mpr h]

/-- Witness for C7: reading a 5-byte datagram into a 3-byte buffer on a
connected socket. -/
theorem read_datagram_truncation_witness :
    udtSocketReadDatagram .sockStateConnected false [some [1, 2, 3, 4, 5]] 3
      = (.result 3 [1, 2, 3] (some .messageTruncated), []) :=
  (read_datagram_truncation .sockStateConnected [1, 2, 3, 4, 5] [] 3 rfl).1
    (by norm_num)

/-- The filtered interface set of `discoverMTU`: the interfaces with an
address matching the local IP, or all interfaces when none match. -/
def filteredIfaces (ifs : List NetInterface) : List NetInterface :=
  let filtered := ifs.filter fun i => i.addrsOK && i.containsOurIP
  if filtered.isEmpty then ifs else filtered

lemma discoverMTU_fold_eq (l : List NetInterface) (m : Nat) :
    l.foldl
        (fun m i => if (i.up && !i.loopback) && decide (i.mtu > m) then i.mtu else m)
        m
      = (l.filter fun i => i.up && !i.loopback).foldl (fun m i => max m i.mtu) m := by
  induction l generalizing m with
  | nil => rfl
  | cons i l ih =>
    rw [List.foldl_cons, List.filter_cons]
    by_cases hc : (i.up && !i.loopback) = true
    · rw [if_pos hc, List.foldl_cons]
      by_cases hm : i.mtu > m
      · have h1 : ((i.up && !i.loopback) && decide (i.mtu > m)) = true := by
          rw [hc, Bool.true_and]; exact decide_eq_true hm
        rw [if_pos h1, Nat.max_eq_right (Nat.le_of_lt hm)]
        exact ih _
      · have h1 : ¬(((i.up && !i.loopback) && decide (i.mtu > m)) = true) := by
          rw [hc, Bool.true_and, decide_eq_false hm]; exact Bool.false_ne_true
        rw [if_neg h1, Nat.max_eq_left (Nat.not_lt.mp hm)]
        exact ih _
    · have hcf : (i.up && !i.loopback) = false := by
        revert hc; cases (i.up && !i.loopback) <;> simp
      have h1 : ¬(((i.up && !i.loopback) && decide (i.mtu > m)) = true) := by
        rw [hcf, Bool.false_and]; exact Bool.false_ne_true
      rw [if_neg h1, if_neg hc]
      exact ih _

/-- C8 amended: `discoverMTU` returns the maximum of 65535 and the
largest MTU among the up, non-loopback interfaces of the filtered set
(interfaces matching the local IP, or all when none match), capped at
`2^31 - 2`; it returns 65535 when the interface list is unavailable. -/
theorem discoverMTU_floored_max (ifs : List NetInterface) :
    discoverMTU (some ifs)
      = min
          (((filteredIfaces ifs).filter fun i => i.up && !i.loopback).foldl
            (fun m i => max m i.mtu) 65535)
          absMaxDatagramSize
    ∧ discoverMTU none = 65535 := by
  refine ⟨?_, rfl⟩
  show (if _ > absMaxDatagramSize then absMaxDatagramSize else _) = _
  rw [discoverMTU_fold_eq]
  have : filteredIfaces ifs
      = (if (ifs.filter fun i => i.addrsOK && i.containsOurIP).isEmpty then ifs
         else ifs.filter fun i => i.addrsOK && i.containsOurIP) := rfl
  rw [← this]
  split
  · next h => exact (Nat.min_eq_right (Nat.le_of_lt h)).symm
  · next h => exact (Nat.min_eq_left (Nat.not_lt.mp h)).symm

/-- C6: a socket in state `Connecting` (as created by `startConnect`,
so `udtVer = 4`) receiving a handshake from its remote address moves to
`Connected` exactly when the request-type is `HsResponse`, the packet's
initial sequence equals the socket's own, and the packet's socket type
matches the socket's datagram/stream mode; request-type `HsRefused`
moves it to `Refused`. -/
theorem readHandshake_connecting_transitions
    (s : udtSocket) (p : HandshakePacket) (a : UDPAddr)
    (hst : s.sockState = .sockStateConnecting) (hver : s.udtVer = 4)
    (hip : a.ip = s.raddr.ip) (hport : a.port = s.raddr.port) :
    ((readHandshake s p a).1.sockState = .sockStateConnected
      ↔ p.ReqType = .HsResponse ∧ p.InitPktSeq = s.initPktSeq
        ∧ s.isDatagram = decide (p.SockType = .TypeDGRAM))
    ∧ (p.ReqType = .HsRefused →
        (readHandshake s p a).1.sockState = .sockStateRefused) := by
  unfold readHandshake
  cases hr : p.ReqType with
  | HsRefused => simp [hip, hport, hst, hr]
  | HsRequest => simp [hip, hport, hst, hr]
  | HsRendezvous => simp [hip, hport, hst, hr]
  | HsResponse2 => simp [hip, hport, hst, hr]
  | HsResponse =>
    by_cases h1 : p.InitPktSeq = s.initPktSeq
    · by_cases h2 : s.isDatagram = decide (p.SockType = .TypeDGRAM)
      · simp [hip, hport, hst, hr, h1, h2, checkValidHandshake, hver,
          applyMaxPktSize]
      · simp [hip, hport, hst, hr, h1, h2, checkValidHandshake, hver]
    · simp [hip, hport, hst, hr, h1, checkValidHandshake, hver]

/-- Witness for C6: a connecting datagram client with initial sequence
11 receiving a matching `HsResponse` datagram handshake. -/
theorem readHandshake_connecting_transitions_witness :
    ((readHandshake
        ⟨⟨1, 2000⟩, 4, true, false, 7, 0, 11, .sockStateConnecting, 1500⟩
        ⟨4, .TypeDGRAM, 11, 1400, 25600, .HsResponse, 21, 0⟩
        ⟨1, 2000⟩).1.sockState = .sockStateConnected
      ↔ HandshakeReqType.HsResponse = .HsResponse ∧ (11 : Nat) = 11
        ∧ true = decide (SockType.TypeDGRAM = .TypeDGRAM))
    ∧ (HandshakeReqType.HsResponse = .HsRefused →
        (readHandshake
          ⟨⟨1, 2000⟩, 4, true, false, 7, 0, 11, .sockStateConnecting, 1500⟩
          ⟨4, .TypeDGRAM, 11, 1400, 25600, .HsResponse, 21, 0⟩
          ⟨1, 2000⟩).1.sockState = .sockStateRefused) :=
  readHandshake_connecting_transitions
    ⟨⟨1, 2000⟩, 4, true, false, 7, 0, 11, .sockStateConnecting, 1500⟩
    ⟨4, .TypeDGRAM, 11, 1400, 25600, .HsResponse, 21, 0⟩
    ⟨1, 2000⟩ rfl rfl rfl rfl

lemma absdiff_self (a : Nat) : absdiff a a = 0 := by simp [absdiff]

lemma applyRTT_eq (a v r : Nat) (ha : a < 2 ^ 32) (hv : v < 2 ^ 32)
    (hr : r < 2 ^ 32) :
    applyRTT a v r = ((a * 7 + r) / 8, (v * 3 + absdiff a r) / 4) := by
  have hd : absdiff a r < 2 ^ 32 := by unfold absdiff; split <;> omega
  have e32 : (2 : Nat) ^ 32 = 4294967296 := by norm_num
  have e64 : (2 : Nat) ^ 64 = 18446744073709551616 := by norm_num
  rw [e32] at ha hv hr hd
  show (((a * 7 + r) % 2 ^ 64) / 8, ((v * 3 + absdiff a r) % 2 ^ 64) / 4) = _
  rw [Nat.mod_eq_of_lt (by rw [e64]; omega), Nat.mod_eq_of_lt (by rw [e64]; omega)]

lemma applyRTT_bound (a v r : Nat) (ha : a < 2 ^ 32) (hv : v < 2 ^ 32)
    (hr : r < 2 ^ 32) :
    (applyRTT a v r).1 < 2 ^ 32 ∧ (applyRTT a v r).2 < 2 ^ 32 := by
  rw [applyRTT_eq a v r ha hv hr]
  have hd : absdiff a r < 2 ^ 32 := by unfold absdiff; split <;> omega
  have e32 : (2 : Nat) ^ 32 = 4294967296 := by norm_num
  rw [e32] at ha hv hr hd ⊢
  exact ⟨by show (a * 7 + r) / 8 < _; omega, by show (v * 3 + _) / 4 < _; omega⟩

lemma rtt_step_contract (a r : Nat) :
    8 * absdiff ((a * 7 + r) / 8) r ≤ 7 * absdiff a r + 7 := by
  unfold absdiff; split <;> split <;> omega

lemma applyRTTiter_succ (a v r n : Nat) :
    applyRTTiter a v r (n + 1)
      = applyRTT (applyRTTiter a v r n).1 (applyRTTiter a v r n).2 r := rfl

lemma applyRTTiter_bound (a v r : Nat) (ha : a < 2 ^ 32) (hv : v < 2 ^ 32)
    (hr : r < 2 ^ 32) (n : Nat) :
    (applyRTTiter a v r n).1 < 2 ^ 32 ∧ (applyRTTiter a v r n).2 < 2 ^ 32 := by
  induction n with
  | zero => exact ⟨ha, hv⟩
  | succ n ih =>
    rw [applyRTTiter_succ]
    exact applyRTT_bound _ _ _ ih.1 ih.2 hr

lemma rtt_iter_geometric (a v r : Nat) (ha : a < 2 ^ 32) (hv : v < 2 ^ 32)
    (hr : r < 2 ^ 32) (n : Nat) :
    8 ^ n * absdiff (applyRTTiter a v r n).1 r + 7 * 7 ^ n
      ≤ 7 ^ n * absdiff a r + 7 * 8 ^ n := by
  induction n with
  | zero => simp [applyRTTiter]
  | succ n ih =>
    have hb := applyRTTiter_bound a v r ha hv hr n
    have h1 : (applyRTTiter a v r (n + 1)).1
        = ((applyRTTiter a v r n).1 * 7 + r) / 8 := by
      rw [applyRTTiter_succ, applyRTT_eq _ _ _ hb.1 hb.2 hr]
    have hstep : 8 * absdiff (applyRTTiter a v r (n + 1)).1 r
        ≤ 7 * absdiff (applyRTTiter a v r n).1 r + 7 := by
      rw [h1]; exact rtt_step_contract _ r
    calc 8 ^ (n + 1) * absdiff (applyRTTiter a v r (n + 1)).1 r + 7 * 7 ^ (n + 1)
        = 8 ^ n * (8 * absdiff (applyRTTiter a v r (n + 1)).1 r) + 7 * (7 * 7 ^ n) := by
          ring
      _ ≤ 8 ^ n * (7 * absdiff (applyRTTiter a v r n).1 r + 7) + 7 * (7 * 7 ^ n) :=
          Nat.add_le_add_right (Nat.mul_le_mul (Nat.le_refl _) hstep) _
      _ = 7 * (8 ^ n * absdiff (applyRTTiter a v r n).1 r + 7 * 7 ^ n) + 7 * 8 ^ n := by
          ring
      _ ≤ 7 * (7 ^ n * absdiff a r + 7 * 8 ^ n) + 7 * 8 ^ n :=
          Nat.add_le_add_right (Nat.mul_le_mul (Nat.le_refl _) ih) _
      _ = 7 ^ (n + 1) * absdiff a r + 7 * 8 ^ (n + 1) := by ring

lemma var_iter_geometric (a v r : Nat) (ha : a < 2 ^ 32) (hv : v < 2 ^ 32)
    (hr : r < 2 ^ 32) (heq : a = r) (n : Nat) :
    (applyRTTiter a v r n).1 = r
      ∧ 4 ^ n * (applyRTTiter a v r n).2 ≤ 3 ^ n * v := by
  induction n with
  | zero => exact ⟨heq, by simp [applyRTTiter]⟩
  | succ n ih =>
    have hb := applyRTTiter_bound a v r ha hv hr n
    have hfst : (applyRTTiter a v r (n + 1)).1 = r := by
      rw [applyRTTiter_succ, ih.1, applyRTT_eq r _ r hr hb.2 hr]
      show (r * 7 + r) / 8 = r
      omega
    have hsnd : (applyRTTiter a v r (n + 1)).2
        = (applyRTTiter a v r n).2 * 3 / 4 := by
      rw [applyRTTiter_succ, ih.1, applyRTT_eq r _ r hr hb.2 hr]
      show ((applyRTTiter a v r n).2 * 3 + absdiff r r) / 4 = _
      rw [absdiff_self, Nat.add_zero]
    refine ⟨hfst, ?_⟩
    rw [hsnd]
    have key : 4 * ((applyRTTiter a v r n).2 * 3 / 4)
        ≤ 3 * (applyRTTiter a v r n).2 := by omega
    calc 4 ^ (n + 1) * ((applyRTTiter a v r n).2 * 3 / 4)
        = 4 ^ n * (4 * ((applyRTTiter a v r n).2 * 3 / 4)) := by ring
      _ ≤ 4 ^ n * (3 * (applyRTTiter a v r n).2) :=
          Nat.mul_le_mul (Nat.le_refl _) key
      _ = 3 * (4 ^ n * (applyRTTiter a v r n).2) := by ring
      _ ≤ 3 * (3 ^ n * v) := Nat.mul_le_mul (Nat.le_refl _) ih.2
      _ = 3 ^ (n + 1) * v := by ring

/-- C5 amended: `applyRTT` is the UDT EWMA with factor 7/8 on the RTT
estimate but factor 3/4 on the variance.  With a fixed sample, the RTT
error contracts per step by 7/8 up to one rounding unit
(`8^n·err_n + 7·7^n ≤ 7^n·err_0 + 7·8^n`, i.e. `err_n ≤ (7/8)^n·err_0 + 7`);
each step sets `rttVar` to `(3·rttVar + |rtt − sample|)/4`, which once
the estimate equals the sample is exactly `3·rttVar/4`, so `rttVar`
then decays to 0 geometrically with factor 3/4 (`4^n·var_n ≤ 3^n·var_0`).
The `uint` arithmetic does not wrap for values below `2^32`. -/
theorem applyRTT_ewma_convergence (rtt rttVar sample : Nat)
    (h1 : rtt < 2 ^ 32) (h2 : rttVar < 2 ^ 32) (h3 : sample < 2 ^ 32) :
    (∀ n, 8 ^ n * absdiff (applyRTTiter rtt rttVar sample n).1 sample + 7 * 7 ^ n
        ≤ 7 ^ n * absdiff rtt sample + 7 * 8 ^ n)
    ∧ 4 * (applyRTT rtt rttVar sample).2 ≤ 3 * rttVar + absdiff rtt sample
    ∧ (rtt = sample → (applyRTT rtt rttVar sample).2 = 3 * rttVar / 4)
    ∧ (rtt = sample →
        ∀ n, 4 ^ n * (applyRTTiter rtt rttVar sample n).2 ≤ 3 ^ n * rttVar) := by
  refine ⟨fun n => rtt_iter_geometric _ _ _ h1 h2 h3 n, ?_, ?_, ?_⟩
  · rw [applyRTT_eq _ _ _ h1 h2 h3]
    show 4 * ((rttVar * 3 + absdiff rtt sample) / 4) ≤ _
    omega
  · intro he
    rw [applyRTT_eq _ _ _ h1 h2 h3, he, absdiff_self]
    show (rttVar * 3 + 0) / 4 = 3 * rttVar / 4
    omega
  · intro he n
    exact (var_iter_geometric _ _ _ h1 h2 h3 he n).2

/-- Witness for C5 at `rtt = sample = 100`, `rttVar = 80`. -/
theorem applyRTT_ewma_convergence_witness :
    (∀ n, 8 ^ n * absdiff (applyRTTiter 100 80 100 n).1 100 + 7 * 7 ^ n
        ≤ 7 ^ n * absdiff 100 100 + 7 * 8 ^ n)
    ∧ 4 * (applyRTT 100 80 100).2 ≤ 3 * 80 + absdiff 100 100
    ∧ (applyRTT 100 80 100).2 = 3 * 80 / 4
    ∧ ∀ n, 4 ^ n * (applyRTTiter 100 80 100 n).2 ≤ 3 ^ n * 80 := by
  have h := applyRTT_ewma_convergence 100 80 100 (by norm_num) (by norm_num)
    (by norm_num)
  exact ⟨h.1, h.2.1, h.2.2.1 rfl, h.2.2.2 rfl⟩

end GoUDT
